import Mathlib

/-!
Verification development for the `launch` package of sd-local: a shallow
embedding of the build-entry assembler and the docker process runner
(`src/launch/docker.go`, `src/launch` glue code), together with theorems
about the claims of the specification.
-/

namespace SdLocal

/-- Go `type EnvVar map[string]string`, modelled as a partial lookup
function from keys to values. -/
abbrev EnvVar := String → Option String

/-- A screwdriver step (external package `screwdriver.Step`); opaque to the
launch package, modelled minimally as a named command. -/
structure Step where
  name : String
  command : String
deriving DecidableEq, Repr

/-- Go `type Meta map[string]interface\x7b\x7d`; opaque to the launch package,
modelled as an association list. -/
abbrev Meta := List (String × String)

/-- The fields of external package `screwdriver.Job` read by the launch
package: environment, steps and image. -/
structure Job where
  Environment : EnvVar
  Steps : List Step
  Image : String

/-- The fields of external package `config.Entry` read by
`createBuildEntry`: the API and store endpoint URLs. -/
structure Entry where
  APIURL : String
  StoreURL : String

/-- Source struct `Option` of launch.go (renamed: `Option` is taken by the
Lean prelude). -/
structure LaunchOption where
  Job : Job
  Entry : Entry
  JobName : String
  JWT : String
  ArtifactsPath : String
  Memory : String
  SrcPath : String
  OptionEnv : EnvVar
  Meta : Meta
  UseSudo : Bool
  UsePrivileged : Bool
  FlagVerbose : Bool

/-- Source struct `buildEntry` of launch.go. -/
structure buildEntry where
  ID : Int
  Environment : List EnvVar
  EventID : Int
  JobID : Int
  ParentBuildID : List Int
  Sha : String
  Meta : Meta
  Steps : List Step
  Image : String
  JobName : String
  ArtifactsPath : String
  MemoryLimit : String
  SrcPath : String
  UseSudo : Bool
  UsePrivileged : Bool

/-- Constant `apiVersion` of launch.go. -/
def apiVersion : String := "v4"

/-- Constant `storeVersion` of launch.go. -/
def storeVersion : String := "v1"

/-- Constant `defaultArtDir` of launch.go. -/
def defaultArtDir : String := "/sd/workspace/artifacts"

/-- Constant `LogFile` of docker.go. -/
def LogFile : String := "builds.log"

/-- Constant `scmHost` of docker.go. -/
def scmHost : String := "screwdriver.cd"

/-- Constant `orgRepo` of docker.go. -/
def orgRepo : String := "sd-local/local-build"

/-- A parsed URL as used by launch.go: scheme, host and path. Model of the
fields of `net/url.URL` that the code touches. -/
structure GoURL where
  scheme : String
  host : String
  path : String
deriving DecidableEq, Repr

/-- Model of `net/url.Parse` restricted to the URL shapes the launch code
feeds it: absolute http/https URLs and plain relative strings. `Parse`
rejects strings containing ASCII control characters (its dominant failure
mode); other inputs parse, an http(s) URL into scheme, host and path and
anything else as an opaque path. -/
def urlParse (s : String) : Option GoURL :=
  let cs := s.toList
  if cs.any (fun c => c.toNat < 32 || c.toNat == 127) then none
  else if List.isPrefixOf ("http://").toList cs then
    let rest := cs.drop 7
    let hostCs := rest.takeWhile (fun c => c ≠ '/')
    some { scheme := "http", host := String.mk hostCs, path := String.mk (rest.drop hostCs.length) }
  else if List.isPrefixOf ("https://").toList cs then
    let rest := cs.drop 8
    let hostCs := rest.takeWhile (fun c => c ≠ '/')
    some { scheme := "https", host := String.mk hostCs, path := String.mk (rest.drop hostCs.length) }
  else some { scheme := "", host := "", path := s }

/-- Splits a string on slashes (helper for the `path.Clean` model). -/
def splitSlashAux : List Char → List Char → List String
  | acc, [] => [String.mk acc.reverse]
  | acc, c :: rest =>
    if c = '/' then String.mk acc.reverse :: splitSlashAux [] rest
    else splitSlashAux (c :: acc) rest

/-- Splits a string on slashes. -/
def splitSlash (s : String) : List String := splitSlashAux [] s.toList

/-- Whether a path is rooted (starts with a slash). -/
def strHeadIsSlash (s : String) : Bool :=
  match s.toList with
  | c :: _ => c = '/'
  | [] => false

/-- Segment normalisation of Go `path.Clean`: drop empty and dot segments,
resolve dot-dot against preceding segments (dot-dot at the root is
dropped when the path is rooted and kept otherwise). -/
def cleanSegsAux (rooted : Bool) : List String → List String → List String
  | acc, [] => acc.reverse
  | acc, seg :: rest =>
    if seg = "" || seg = "." then cleanSegsAux rooted acc rest
    else if seg = ".." then
      match acc with
      | [] => if rooted then cleanSegsAux rooted [] rest else cleanSegsAux rooted [".."] rest
      | a :: t => if a = ".." then cleanSegsAux rooted (".." :: acc) rest else cleanSegsAux rooted t rest
    else cleanSegsAux rooted (seg :: acc) rest

/-- Joins path segments with slashes. -/
def joinSegs : List String → String
  | [] => ""
  | [x] => x
  | x :: y :: rest => x ++ "/" ++ joinSegs (y :: rest)

/-- Model of Go `path.Clean`. -/
def pathClean (p : String) : String :=
  if p = "" then "."
  else
    let rooted := strHeadIsSlash p
    let segs := cleanSegsAux rooted [] (splitSlash p)
    if segs = [] then (if rooted then "/" else ".")
    else (if rooted then "/" else "") ++ joinSegs segs

/-- Model of Go `path.Join` for two elements (as called by launch.go and
docker.go): empty elements are skipped, the rest joined with a slash and
cleaned. -/
def pathJoin (a b : String) : String :=
  let elems := (if a = "" then [] else [a]) ++ (if b = "" then [] else [b])
  if elems = [] then ""
  else pathClean (joinSegs elems)

/-- Model of `net/url.URL.String` for the URL shapes produced by
`urlParse`: scheme and host rendered when present, and a nonempty path not
starting with a slash separated from the host by a slash. -/
def urlString (u : GoURL) : String :=
  if u.scheme = "" && u.host = "" then u.path
  else
    u.scheme ++ "://" ++ u.host ++
      (if u.path ≠ "" && !(strHeadIsSlash u.path) then "/" ++ u.path else u.path)

/-- Functional rendering of a Go map overwrite loop `for k, v := range add
\x7b base[k] = v \x7d`: the result looks a key up in `add` first and falls back
to `base`. -/
def overlay (base add : EnvVar) : EnvVar := fun k =>
  match add k with
  | some v => some v
  | none => base k

/-- Source function `mergeEnv` of launch.go: overwrite `env` with `jobEnv`,
then with `optionEnv`, and wrap the merged map in a singleton list. -/
def mergeEnv (env jobEnv optionEnv : EnvVar) : List EnvVar :=
  [overlay (overlay env jobEnv) optionEnv]

/-- The default environment built inside `createBuildEntry` (launch.go):
token, artifacts dir and the two versioned endpoint URLs (version segment
appended when the URL parses, the raw string retained when it does not). -/
def buildDefaultEnv (o : LaunchOption) : EnvVar :=
  let apiURL :=
    match urlParse o.Entry.APIURL with
    | some a => urlString { a with path := pathJoin a.path apiVersion }
    | none => o.Entry.APIURL
  let storeURL :=
    match urlParse o.Entry.StoreURL with
    | some s => urlString { s with path := pathJoin s.path storeVersion }
    | none => o.Entry.StoreURL
  fun k =>
    if k = "SD_TOKEN" then some o.JWT
    else if k = "SD_ARTIFACTS_DIR" then some defaultArtDir
    else if k = "SD_API_URL" then some apiURL
    else if k = "SD_STORE_URL" then some storeURL
    else none

/-- Source function `createBuildEntry` of launch.go. It is total: URL parse
failures fall back to the raw string (with a warning log, not modelled) and
construction is never aborted. -/
def createBuildEntry (o : LaunchOption) : buildEntry :=
  { ID := 0
    Environment := mergeEnv (buildDefaultEnv o) o.Job.Environment o.OptionEnv
    EventID := 0
    JobID := 0
    ParentBuildID := [0]
    Sha := "dummy"
    Meta := o.Meta
    Steps := o.Job.Steps
    Image := o.Job.Image
    JobName := o.JobName
    ArtifactsPath := o.ArtifactsPath
    MemoryLimit := o.Memory
    SrcPath := o.SrcPath
    UseSudo := o.UseSudo
    UsePrivileged := o.UsePrivileged }

/-- The (single) merged environment of a build entry, as read by
`runBuild` via `buildEntry.Environment[0]`. -/
def envOf (be : buildEntry) : EnvVar := be.Environment.headD (fun _ => none)

/-- Go map read `m[k]` yielding the zero value when the key is absent. -/
def envGet (m : EnvVar) (k : String) : String := (m k).getD ""

/-- Source struct `docker` of docker.go: the static configuration of the
runner (the mutable registry and the mutex are modelled separately, as
`RunnerState` for command tracking and as explicit lock state in the kill
model). -/
structure docker where
  volume : String
  habVolume : String
  setupImage : String
  setupImageVersion : String
  useSudo : Bool
  flagVerbose : Bool
deriving DecidableEq, Repr

/-- The argv that `execDockerCommand` builds: `docker` prepended to the
arguments, and `sudo` prepended to that when privilege elevation is
configured. -/
def execCmdArgv (useSudo : Bool) (args : List String) : List String :=
  let commands := "docker" :: args
  if useSudo then "sudo" :: commands else commands

/-- The mutable state of the runner: the process registry `d.commands`
(each entry recorded as its argv) and the list of commands actually run. -/
structure RunnerState where
  registry : List (List String)
  executed : List (List String)
deriving DecidableEq, Repr

/-- Source function `execDockerCommand` of docker.go: build the argv,
append the command to the registry, run it, and report whether the run
succeeded (per the `execOk` oracle standing for the external process's
exit status). The append is performed without any mutex operation, exactly
as in the source. -/
def execDockerCommand (useSudo : Bool) (execOk : List String → Bool)
    (st : RunnerState) (args : List String) : RunnerState × Bool :=
  let commands := execCmdArgv useSudo args
  ({ registry := st.registry ++ [commands], executed := st.executed ++ [commands] },
   execOk commands)

/-- The primitive operations of a registry-touching code path, used to
account for lock acquisitions and releases. -/
inductive RegOp where
  | lockOp
  | unlockOp
  | newCmd
  | appendCmd
  | runOp
deriving DecidableEq, Repr

/-- The operation sequence of `execDockerCommand` (docker.go lines
127-147): create the command, append it to `d.commands`, run it. The
source contains no mutex operation on this path. -/
def execDockerCommandOps : List RegOp := [RegOp.newCmd, RegOp.appendCmd, RegOp.runOp]

/-- Net lock depth after a sequence of operations. -/
def lockDepth (ops : List RegOp) : Int :=
  ops.foldl (fun d op =>
    match op with
    | RegOp.lockOp => d + 1
    | RegOp.unlockOp => d - 1
    | _ => d) 0

/-- Lock depth in force when the operation at index `i` executes. -/
def lockHeldAtIdx (ops : List RegOp) (i : Nat) : Int := lockDepth (ops.take i)

/-- Source function `setupBin` of docker.go: create the two shared
volumes, pull the setup image, run the no-op materialisation container;
fail fast with a wrapped error on the first failure. -/
def setupBin (d : docker) (execOk : List String → Bool)
    (st : RunnerState) : RunnerState × Except String Unit :=
  let r1 := execDockerCommand d.useSudo execOk st ["volume", "create", "--name", d.volume]
  if !r1.2 then (r1.1, Except.error "failed to create docker volume") else
  let r2 := execDockerCommand d.useSudo execOk r1.1 ["volume", "create", "--name", d.habVolume]
  if !r2.2 then (r2.1, Except.error "failed to create docker hab volume") else
  let image := d.setupImage ++ ":" ++ d.setupImageVersion
  let r3 := execDockerCommand d.useSudo execOk r2.1 ["pull", image]
  if !r3.2 then (r3.1, Except.error "failed to pull launcher image") else
  let mount := d.volume ++ ":/opt/sd/"
  let habMount := d.habVolume ++ ":/hab"
  let r4 := execDockerCommand d.useSudo execOk r3.1
    ["container", "run", "--rm", "-v", mount, "-v", habMount, image,
     "--entrypoint", "/bin/echo set up bin"]
  if !r4.2 then (r4.1, Except.error "failed to prepare build scripts") else
  (r4.1, Except.ok ())

/-- The container-run argument list that `runBuild` (docker.go lines
84-119) constructs: the fixed base list, the memory-limit flag prepended
to the options when a limit is set, and the privileged flag prepended
after that. `none` models the index-out-of-range panic on an empty
environment list. The serialized descriptor `configJSON` stands for
`json.Marshal(buildEntry)`. -/
def runBuildArgs (vol habVolume : String) (be : buildEntry)
    (configJSON : String) : Option (List String) :=
  match be.Environment with
  | [] => none
  | environment :: _ =>
    let containerArtDir := envGet environment "SD_ARTIFACTS_DIR"
    let logfilePath := pathJoin containerArtDir LogFile
    let srcVol := be.SrcPath ++ "/:/sd/workspace/src/" ++ scmHost ++ "/" ++ orgRepo
    let artVol := be.ArtifactsPath ++ "/:" ++ containerArtDir
    let binVol := vol ++ ":/opt/sd"
    let habVol := habVolume ++ ":/opt/sd/hab"
    let dockerCommandArgs := ["container", "run"]
    let dockerCommandOptions :=
      ["--rm", "-v", srcVol, "-v", artVol, "-v", binVol, "-v", habVol, be.Image,
       "/opt/sd/local_run.sh", configJSON, be.JobName,
       envGet environment "SD_API_URL", envGet environment "SD_STORE_URL", logfilePath]
    let dockerCommandOptions :=
      if be.MemoryLimit ≠ "" then ("-m" ++ be.MemoryLimit) :: dockerCommandOptions
      else dockerCommandOptions
    let dockerCommandOptions :=
      if be.UsePrivileged then "--privileged" :: dockerCommandOptions
      else dockerCommandOptions
    some (dockerCommandArgs ++ dockerCommandOptions)

/-- Source function `runBuild` of docker.go: pull the job image, then run
the build container with the constructed argument list. -/
def runBuildM (d : docker) (execOk : List String → Bool) (st : RunnerState)
    (be : buildEntry) (configJSON : String) : RunnerState × Except String Unit :=
  match runBuildArgs d.volume d.habVolume be configJSON with
  | none => (st, Except.error "panic: runtime error: index out of range")
  | some args =>
    let r1 := execDockerCommand d.useSudo execOk st ["pull", be.Image]
    if !r1.2 then (r1.1, Except.error "failed to pull user image") else
    let r2 := execDockerCommand d.useSudo execOk r1.1 args
    if !r2.2 then (r2.1, Except.error "failed to run build container") else
    (r2.1, Except.ok ())

/-- Source method `Run` of launch.go, together with the fresh runner state
a `New`-created launcher starts from: look up `docker` on the PATH, then
provision (`setupBin`), then execute (`runBuild`). `dockerOnPath` and
`lookErr` model the result of `exec.LookPath("docker")`. -/
def launchRun (dockerOnPath : Bool) (lookErr : String) (d : docker)
    (execOk : List String → Bool) (be : buildEntry) (configJSON : String) :
    RunnerState × Except String Unit :=
  let st0 : RunnerState := { registry := [], executed := [] }
  if !dockerOnPath then
    (st0, Except.error ("`docker` command is not found in $PATH: " ++ lookErr))
  else
    match setupBin d execOk st0 with
    | (st, Except.error e) => (st, Except.error ("failed to setup build: " ++ e))
    | (st, Except.ok ()) =>
      match runBuildM d execOk st be configJSON with
      | (st, Except.error e) => (st, Except.error ("failed to run build: " ++ e))
      | (st, Except.ok ()) => (st, Except.ok ())

/-- Go `os.Signal`: either a `syscall.Signal` (carrying its number) or a
value of some other dynamic type. -/
inductive OsSignal where
  | syscallSignal (n : Int)
  | otherSignal
deriving DecidableEq, Repr

/-- Source function `signum` of docker.go: the signal number of a
`syscall.Signal` within range, and `-1` for out-of-range numbers or other
signal types. -/
def signum (sig : OsSignal) : Int :=
  match sig with
  | OsSignal.syscallSignal i => if i < 0 || 65 ≤ i then -1 else i
  | OsSignal.otherSignal => -1

/-- One registry entry as `kill` inspects it: the process id, whether its
terminal state (`ProcessState`) had already been observed at inspection
time, and whether signal delivery to it (direct `Signal` or elevated
`sudo kill`) returns without error. -/
structure Proc where
  pid : Nat
  exited : Bool
  signalOk : Bool
deriving DecidableEq, Repr

/-- The state threaded through the signalling loop of `kill` (docker.go
lines 149-172): whether the goroutine is blocked forever on a second
`mutex.Lock` (`stuck`), whether the mutex is currently held, the delivery
attempts made (flagged with whether the elevated path was used), the argv
of every elevated `sudo kill` spawned, the processes appended to
`killedCmds`, and the pids whose delivery failure was logged. -/
structure KillState where
  stuck : Bool
  lockHeld : Bool
  signaled : List (Bool × Nat)
  elevated : List (List String)
  killedCmds : List Proc
  failLogged : List Nat
deriving DecidableEq, Repr

/-- One iteration of the `kill` loop, exactly as in the source: `Lock`
(blocking forever if the mutex is already held); on `ProcessState != nil`,
`continue` WITHOUT unlocking; otherwise `Unlock`, deliver the signal
(elevated `sudo kill -<signum> <pid>` under sudo, direct `Signal`
otherwise), and on failure log, on success append to `killedCmds`. -/
def killStep (u : Bool) (s : OsSignal) (st : KillState) (v : Proc) : KillState :=
  if st.stuck then st
  else if st.lockHeld then { st with stuck := true }
  else if v.exited then { st with lockHeld := true }
  else
    let st1 : KillState :=
      { st with
        signaled := st.signaled ++ [(u, v.pid)]
        elevated := st.elevated ++
          (if u then [["sudo", "kill", "-" ++ toString (signum s), toString v.pid]] else []) }
    if v.signalOk then { st1 with killedCmds := st1.killedCmds ++ [v] }
    else { st1 with failLogged := st1.failLogged ++ [v.pid] }

/-- The initial state of the `kill` loop: mutex free, nothing signalled. -/
def initKillState : KillState :=
  { stuck := false, lockHeld := false, signaled := [], elevated := [],
    killedCmds := [], failLogged := [] }

/-- Constant `retryMax` of `waitForProcess` (docker.go line 198). -/
def retryMax : Nat := 9

/-- The outcome of the confirmation wait: every waited-on process
confirmed exited, the bounded retry window exceeded (the source's
"waited 10 seconds and could not confirm that the process was dead"
error), or blocked forever on the mutex. -/
inductive WaitOutcome where
  | ok
  | timeout
  | stuck
deriving DecidableEq, Repr

/-- The polling loop of `waitForProcess`: the source ticks once per second
with `retryCnt` counting up from 1 and errors out as soon as
`retryCnt > retryMax` finds an unconfirmed process; modelled with the tick
number `t` counting up and `remaining = retryMax + 1 - (t - 1)` ticks left
before the bound is exceeded. `exited t c` is the oracle for whether
process `c`'s `ProcessState` is set at tick `t`. -/
def waitLoop (exited : Nat → Nat → Bool) (cmds : List Nat) : Nat → Nat → WaitOutcome
  | _, 0 => WaitOutcome.timeout
  | t, remaining + 1 =>
    if cmds.all (fun c => exited t c) then WaitOutcome.ok
    else waitLoop exited cmds (t + 1) remaining

/-- Source function `waitForProcess` of docker.go, entered with the given
mutex state: every tick re-acquires and releases the mutex per waited-on
process, so if the mutex is already held and there is at least one process
to check, the first tick blocks forever. -/
def waitForProcess (lockHeld : Bool) (exited : Nat → Nat → Bool)
    (cmds : List Nat) : WaitOutcome :=
  if lockHeld && !cmds.isEmpty then WaitOutcome.stuck
  else waitLoop exited cmds 1 (retryMax + 1)

/-- The overall result of `kill`: the final loop state, the confirmation
wait's outcome (`stuck` when the signalling loop itself deadlocked and the
wait is never reached), and whether the caller logged the
confirmation-timeout error. -/
structure KillResult where
  loop : KillState
  waitOutcome : WaitOutcome
  timeoutLogged : Bool
deriving DecidableEq, Repr

/-- Source function `kill` of docker.go: run the signalling loop over the
registry, then wait for the successfully signalled processes
(`killedCmds`) to be confirmed dead, logging (not propagating) the
timeout error. -/
def kill (u : Bool) (s : OsSignal) (procs : List Proc)
    (exitedAt : Nat → Nat → Bool) : KillResult :=
  let st := procs.foldl (killStep u s) initKillState
  if st.stuck then { loop := st, waitOutcome := WaitOutcome.stuck, timeoutLogged := false }
  else
    let w := waitForProcess st.lockHeld exitedAt (st.killedCmds.map Proc.pid)
    { loop := st, waitOutcome := w,
      timeoutLogged := match w with | WaitOutcome.timeout => true | _ => false }

/-- A concrete `LaunchOption` exercising the spec scenarios: the example
endpoint URLs, a job-declared `FOO=1` and a caller override `FOO=2`. -/
def optFoo : LaunchOption :=
  { Job := { Environment := fun k => if k = "FOO" then some "1" else none,
             Steps := [], Image := "node:12" }
    Entry := { APIURL := "http://api.example.com", StoreURL := "http://store.example.com" }
    JobName := "main"
    JWT := "dummy-jwt"
    ArtifactsPath := "/home/user/sd-artifacts"
    Memory := ""
    SrcPath := "/home/user/src"
    OptionEnv := fun k => if k = "FOO" then some "2" else none
    Meta := []
    UseSudo := false
    UsePrivileged := false
    FlagVerbose := false }

/-- A concrete merged environment as `runBuild` reads it. -/
def envEx : EnvVar := fun k =>
  if k = "SD_ARTIFACTS_DIR" then some "/sd/workspace/artifacts"
  else if k = "SD_API_URL" then some "http://api.example.com/v4"
  else if k = "SD_STORE_URL" then some "http://store.example.com/v1"
  else none

/-- A concrete build entry with a memory limit and privileged mode, the
spec's `execute` scenario. -/
def beEx : buildEntry :=
  { ID := 0, Environment := [envEx], EventID := 0, JobID := 0, ParentBuildID := [0],
    Sha := "dummy", Meta := [], Steps := [], Image := "node:12", JobName := "main",
    ArtifactsPath := "/home/user/sd-artifacts", MemoryLimit := "512m",
    SrcPath := "/home/user/src", UseSudo := false, UsePrivileged := true }

lemma killStep_stuck (u : Bool) (s : OsSignal) (st : KillState) (v : Proc)
    (h : st.stuck = true) : killStep u s st v = st := by
  simp [killStep, h]

lemma killStep_locked (u : Bool) (s : OsSignal) (st : KillState) (v : Proc)
    (h1 : st.stuck = false) (h2 : st.lockHeld = true) :
    killStep u s st v = { st with stuck := true } := by
  simp [killStep, h1, h2]

lemma killStep_exited (u : Bool) (s : OsSignal) (st : KillState) (v : Proc)
    (h1 : st.stuck = false) (h2 : st.lockHeld = false) (h3 : v.exited = true) :
    killStep u s st v = { st with lockHeld := true } := by
  simp [killStep, h1, h2, h3]

lemma killStep_live_ok (u : Bool) (s : OsSignal) (st : KillState) (v : Proc)
    (h1 : st.stuck = false) (h2 : st.lockHeld = false) (h3 : v.exited = false)
    (h4 : v.signalOk = true) :
    killStep u s st v =
      { st with
        signaled := st.signaled ++ [(u, v.pid)]
        elevated := st.elevated ++
          (if u then [["sudo", "kill", "-" ++ toString (signum s), toString v.pid]] else [])
        killedCmds := st.killedCmds ++ [v] } := by
  simp [killStep, h1, h2, h3, h4]

lemma killStep_live_err (u : Bool) (s : OsSignal) (st : KillState) (v : Proc)
    (h1 : st.stuck = false) (h2 : st.lockHeld = false) (h3 : v.exited = false)
    (h4 : v.signalOk = false) :
    killStep u s st v =
      { st with
        signaled := st.signaled ++ [(u, v.pid)]
        elevated := st.elevated ++
          (if u then [["sudo", "kill", "-" ++ toString (signum s), toString v.pid]] else [])
        failLogged := st.failLogged ++ [v.pid] } := by
  simp [killStep, h1, h2, h3, h4]

/-- Exact characterisation of the signalling loop when no registry entry
has been observed exited yet: the loop terminates with the mutex free,
delivers exactly one signal per process, logs exactly the delivery
failures, and collects exactly the successfully signalled processes in
`killedCmds`. -/
lemma killFold_noExited (u : Bool) (s : OsSignal) :
    ∀ (procs : List Proc) (st : KillState),
      st.stuck = false → st.lockHeld = false → (∀ p ∈ procs, p.exited = false) →
      (procs.foldl (killStep u s) st).stuck = false
      ∧ (procs.foldl (killStep u s) st).lockHeld = false
      ∧ (procs.foldl (killStep u s) st).killedCmds
          = st.killedCmds ++ procs.filter (fun p => p.signalOk)
      ∧ (procs.foldl (killStep u s) st).signaled
          = st.signaled ++ procs.map (fun p => (u, p.pid))
      ∧ (procs.foldl (killStep u s) st).failLogged
          = st.failLogged ++ (procs.filter (fun p => !p.signalOk)).map Proc.pid
      ∧ (procs.foldl (killStep u s) st).elevated
          = st.elevated ++
            (if u then
              procs.map (fun p => ["sudo", "kill", "-" ++ toString (signum s), toString p.pid])
             else []) := by
  intro procs
  induction procs with
  | nil => intro st h1 h2 _; simp [h1, h2]
  | cons p ps ih =>
    intro st h1 h2 h3
    have hp : p.exited = false := h3 p (List.mem_cons_self p ps)
    have hps : ∀ q ∈ ps, q.exited = false := fun q hq => h3 q (List.mem_cons_of_mem p hq)
    rw [List.foldl_cons]
    cases hk : p.signalOk with
    | true =>
      have hstep := killStep_live_ok u s st p h1 h2 hp hk
      obtain ⟨i1, i2, i3, i4, i5, i6⟩ :=
        ih (killStep u s st p) (by simp [hstep, h1]) (by simp [hstep, h2]) hps
      refine ⟨i1, i2, ?_, ?_, ?_, ?_⟩
      · rw [i3, hstep]; simp [List.filter_cons, hk, List.append_assoc]
      · rw [i4, hstep]; simp [List.append_assoc]
      · rw [i5, hstep]; simp [List.filter_cons, hk]
      · rw [i6, hstep]; cases u <;> simp [List.append_assoc]
    | false =>
      have hstep := killStep_live_err u s st p h1 h2 hp hk
      obtain ⟨i1, i2, i3, i4, i5, i6⟩ :=
        ih (killStep u s st p) (by simp [hstep, h1]) (by simp [hstep, h2]) hps
      refine ⟨i1, i2, ?_, ?_, ?_, ?_⟩
      · rw [i3, hstep]; simp [List.filter_cons, hk]
      · rw [i4, hstep]; simp [List.append_assoc]
      · rw [i5, hstep]; simp [List.filter_cons, hk, List.append_assoc]
      · rw [i6, hstep]; cases u <;> simp [List.append_assoc]

/-- Every delivery attempt recorded by the signalling loop targets a
process whose terminal state had not been observed when it was
inspected. -/
lemma killFold_signaled_mem (u : Bool) (s : OsSignal) :
    ∀ (procs : List Proc) (st : KillState) (x : Bool × Nat),
      x ∈ (procs.foldl (killStep u s) st).signaled →
      x ∈ st.signaled ∨ ∃ p, p ∈ procs ∧ x = (u, p.pid) ∧ p.exited = false := by
  intro procs
  induction procs with
  | nil => intro st x hx; exact Or.inl (by simpa using hx)
  | cons p ps ih =>
    intro st x hx
    rw [List.foldl_cons] at hx
    have lift : x ∈ (killStep u s st p).signaled ∨ ∃ q, q ∈ ps ∧ x = (u, q.pid) ∧ q.exited = false :=
      ih (killStep u s st p) x hx
    cases h1 : st.stuck with
    | true =>
      rw [killStep_stuck u s st p h1] at lift
      rcases lift with h | ⟨q, hq, hxq, hqe⟩
      · exact Or.inl h
      · exact Or.inr ⟨q, List.mem_cons_of_mem p hq, hxq, hqe⟩
    | false =>
      cases h2 : st.lockHeld with
      | true =>
        rw [killStep_locked u s st p h1 h2] at lift
        rcases lift with h | ⟨q, hq, hxq, hqe⟩
        · exact Or.inl (by simpa using h)
        · exact Or.inr ⟨q, List.mem_cons_of_mem p hq, hxq, hqe⟩
      | false =>
        cases h3 : p.exited with
        | true =>
          rw [killStep_exited u s st p h1 h2 h3] at lift
          rcases lift with h | ⟨q, hq, hxq, hqe⟩
          · exact Or.inl (by simpa using h)
          · exact Or.inr ⟨q, List.mem_cons_of_mem p hq, hxq, hqe⟩
        | false =>
          have hsig : (killStep u s st p).signaled = st.signaled ++ [(u, p.pid)] := by
            cases h4 : p.signalOk with
            | true => rw [killStep_live_ok u s st p h1 h2 h3 h4]
            | false => rw [killStep_live_err u s st p h1 h2 h3 h4]
          rw [hsig] at lift
          rcases lift with h | ⟨q, hq, hxq, hqe⟩
          · rcases List.mem_append.mp h with h' | h'
            · exact Or.inl h'
            · exact Or.inr ⟨p, List.mem_cons_self p ps, by simpa using h', h3⟩
          · exact Or.inr ⟨q, List.mem_cons_of_mem p hq, hxq, hqe⟩

/-- In a registry whose pids are pairwise distinct, two entries with the
same pid are the same entry. -/
lemma pid_nodup_inj :
    ∀ (l : List Proc), (l.map Proc.pid).Nodup →
      ∀ p, p ∈ l → ∀ q, q ∈ l → p.pid = q.pid → p = q := by
  intro l
  induction l with
  | nil => intro _ p hp; cases hp
  | cons a t ih =>
    intro hn p hp q hq hpq
    rw [List.map_cons, List.nodup_cons] at hn
    rcases List.mem_cons.mp hp with rfl | hp' <;> rcases List.mem_cons.mp hq with rfl | hq'
    · rfl
    · exact absurd (hpq ▸ List.mem_map_of_mem Proc.pid hq') hn.1
    · exact absurd (hpq ▸ List.mem_map_of_mem Proc.pid hp') hn.1
    · exact ih hn.2 p hp' q hq' hpq

/-- The loop state reported by `kill` is the fold of `killStep` over the
registry, on both the deadlocked and the completed branch. -/
lemma kill_loop_eq (u : Bool) (s : OsSignal) (procs : List Proc)
    (exitedAt : Nat → Nat → Bool) :
    (kill u s procs exitedAt).loop = procs.foldl (killStep u s) initKillState := by
  cases h : (procs.foldl (killStep u s) initKillState).stuck <;> simp [kill, h]

/-- When the signalling loop completes without deadlocking, the outcome
reported by `kill` is that of the confirmation wait entered with the
loop's final mutex state over the collected `killedCmds`. -/
lemma kill_wait_eq (u : Bool) (s : OsSignal) (procs : List Proc)
    (exitedAt : Nat → Nat → Bool)
    (hst : (procs.foldl (killStep u s) initKillState).stuck = false) :
    (kill u s procs exitedAt).waitOutcome
      = waitForProcess (procs.foldl (killStep u s) initKillState).lockHeld exitedAt
          ((procs.foldl (killStep u s) initKillState).killedCmds.map Proc.pid) := by
  simp only [kill]
  rw [if_neg (by simp [hst])]

/-- The polling loop itself never blocks: it either confirms every
process or gives up after its bounded number of ticks. -/
lemma waitLoop_ne_stuck (exited : Nat → Nat → Bool) (cmds : List Nat) :
    ∀ (remaining t : Nat), waitLoop exited cmds t remaining ≠ WaitOutcome.stuck := by
  intro remaining
  induction remaining with
  | zero => intro t h; simp [waitLoop] at h
  | succ r ih =>
    intro t h
    rw [waitLoop] at h
    by_cases hall : cmds.all (fun c => exited t c) = true
    · simp [hall] at h
    · rw [if_neg hall] at h
      exact ih (t + 1) h

/-- The polling loop confirms exactly when some tick within its window
observes every process exited. -/
lemma waitLoop_ok_iff (exited : Nat → Nat → Bool) (cmds : List Nat) :
    ∀ (remaining t : Nat),
      waitLoop exited cmds t remaining = WaitOutcome.ok ↔
        ∃ k, t ≤ k ∧ k < t + remaining ∧ cmds.all (fun c => exited k c) = true := by
  intro remaining
  induction remaining with
  | zero =>
    intro t
    constructor
    · intro h; simp [waitLoop] at h
    · rintro ⟨k, hk1, hk2, _⟩; omega
  | succ r ih =>
    intro t
    rw [waitLoop]
    by_cases hall : cmds.all (fun c => exited t c) = true
    · rw [if_pos hall]
      constructor
      · intro _; exact ⟨t, le_refl t, by omega, hall⟩
      · intro _; rfl
    · rw [if_neg hall, ih (t + 1)]
      constructor
      · rintro ⟨k, hk1, hk2, hk3⟩; exact ⟨k, by omega, by omega, hk3⟩
      · rintro ⟨k, hk1, hk2, hk3⟩
        refine ⟨k, ?_, by omega, hk3⟩
        rcases Nat.eq_or_lt_of_le hk1 with rfl | hlt
        · exact absurd hk3 hall
        · omega

example : urlParse "http://api.example.com" =
    some { scheme := "http", host := "api.example.com", path := "" } := by rfl

example : pathJoin "" "v4" = "v4" := by rfl

example : urlString { scheme := "http", host := "api.example.com", path := "v4" } =
    "http://api.example.com/v4" := by rfl

example :
    (kill false (OsSignal.syscallSignal 15) [⟨1, false, true⟩] (fun _ _ => true)).waitOutcome =
      WaitOutcome.ok := by rfl

example :
    (kill false (OsSignal.syscallSignal 15) [⟨1, false, true⟩, ⟨2, true, true⟩]
      (fun _ _ => true)).waitOutcome = WaitOutcome.stuck := by rfl

example :
    (kill false (OsSignal.syscallSignal 15) [⟨2, true, true⟩, ⟨1, false, true⟩]
      (fun _ _ => true)).loop.stuck = true := by rfl

example :
    (kill false (OsSignal.syscallSignal 15) [⟨1, false, true⟩] (fun _ _ => false)).waitOutcome =
      WaitOutcome.timeout := by rfl

example :
    (kill true OsSignal.otherSignal [⟨42, false, false⟩] (fun _ _ => false)).loop.elevated =
      [["sudo", "kill", "--1", "42"]] := by rfl

/-- C1 (code bug witnessed): in a registry holding one live process whose
signal delivery succeeds followed by one already-exited process, with
every process confirmed exited at every poll, `kill` collects the live
process in its confirmation set but then blocks forever: the
already-exited branch left the mutex locked, so the first `mutex.Lock` of
`waitForProcess` never returns. The final conjunct shows the poll loop
itself would have confirmed immediately had the mutex been free, so the
block is caused solely by the retained lock, contradicting the claim that
`kill` returns without blocking once every successfully signalled process
is confirmed exited. -/
theorem kill_confirmation_deadlock :
    ((kill false (OsSignal.syscallSignal 15) [⟨1, false, true⟩, ⟨2, true, true⟩]
        (fun _ _ => true)).loop.killedCmds = [⟨1, false, true⟩])
    ∧ ((kill false (OsSignal.syscallSignal 15) [⟨1, false, true⟩, ⟨2, true, true⟩]
        (fun _ _ => true)).waitOutcome = WaitOutcome.stuck)
    ∧ waitForProcess false (fun _ _ => true) [1] = WaitOutcome.ok :=
  ⟨rfl, rfl, rfl⟩

/-- C2: a process whose terminal state had already been observed when
`kill` inspected it receives no delivery attempt at all — neither a
direct `Signal` call nor an elevated `sudo kill` spawn is recorded for
its pid (under the real-world invariant that registry pids are pairwise
distinct). -/
theorem kill_skips_exited (u : Bool) (s : OsSignal) (procs : List Proc)
    (exitedAt : Nat → Nat → Bool) (hn : (procs.map Proc.pid).Nodup)
    (p : Proc) (hp : p ∈ procs) (he : p.exited = true) (b : Bool) :
    (b, p.pid) ∉ (kill u s procs exitedAt).loop.signaled := by
  intro hmem
  rw [kill_loop_eq] at hmem
  rcases killFold_signaled_mem u s procs initKillState (b, p.pid) hmem with h | ⟨q, hq, hxq, hqe⟩
  · simp [initKillState] at h
  · have hpid : p.pid = q.pid := by
      have := congrArg Prod.snd hxq
      simpa using this
    have hpq : p = q := pid_nodup_inj procs hn p hp q hq hpid
    rw [hpq, hqe] at he
    exact absurd he (by decide)

/-- Witness for C2 at a concrete registry: the delivery list of a run over
a live process and an already-exited process with pid 1 does not contain
an attempt on pid 1. -/
theorem kill_skips_exited_witness :
    (false, 1) ∉ (kill false (OsSignal.syscallSignal 15)
      [⟨2, false, true⟩, ⟨1, true, true⟩] (fun _ _ => true)).loop.signaled :=
  kill_skips_exited false (OsSignal.syscallSignal 15)
    [⟨2, false, true⟩, ⟨1, true, true⟩] (fun _ _ => true) (by decide)
    ⟨1, true, true⟩ (by decide) rfl false

/-- C3: over a registry of processes none of which has exited yet (so the
signalling loop runs to completion), every delivery failure is logged
exactly once, the failing processes are excluded from `killedCmds`, each
process receives exactly one delivery attempt (no retry), and the
confirmation wait polls exactly the successfully signalled processes. -/
theorem kill_delivery_failure_excluded (u : Bool) (s : OsSignal) (procs : List Proc)
    (exitedAt : Nat → Nat → Bool) (h : ∀ p ∈ procs, p.exited = false) :
    (kill u s procs exitedAt).loop.failLogged
        = (procs.filter (fun p => !p.signalOk)).map Proc.pid
    ∧ (kill u s procs exitedAt).loop.killedCmds = procs.filter (fun p => p.signalOk)
    ∧ (kill u s procs exitedAt).loop.signaled = procs.map (fun p => (u, p.pid))
    ∧ (kill u s procs exitedAt).waitOutcome
        = waitForProcess false exitedAt
            ((procs.filter (fun p => p.signalOk)).map Proc.pid) := by
  obtain ⟨f1, f2, f3, f4, f5, f6⟩ := killFold_noExited u s procs initKillState rfl rfl h
  have hloop := kill_loop_eq u s procs exitedAt
  refine ⟨?_, ?_, ?_, ?_⟩
  · rw [hloop, f5]; simp [initKillState]
  · rw [hloop, f3]; simp [initKillState]
  · rw [hloop, f4]; simp [initKillState]
  · rw [kill_wait_eq u s procs exitedAt f1, f2, f3]; simp [initKillState]

/-- Witness for C3 at a concrete registry: with delivery to pid 5 failing
and delivery to pid 6 succeeding, pid 5 is logged and only pid 6 enters
the confirmation set. -/
theorem kill_delivery_failure_excluded_witness :
    (kill false (OsSignal.syscallSignal 15) [⟨5, false, false⟩, ⟨6, false, true⟩]
        (fun _ _ => true)).loop.failLogged = [5]
    ∧ (kill false (OsSignal.syscallSignal 15) [⟨5, false, false⟩, ⟨6, false, true⟩]
        (fun _ _ => true)).loop.killedCmds = [⟨6, false, true⟩] := by
  have h := kill_delivery_failure_excluded false (OsSignal.syscallSignal 15)
    [⟨5, false, false⟩, ⟨6, false, true⟩] (fun _ _ => true) (by decide)
  exact ⟨Eq.trans h.1 rfl, Eq.trans h.2.1 rfl⟩

/-- C4 (code bug witnessed): the already-exited branch of the signalling
loop exits its critical section with the mutex still held — after
inspecting a single already-exited process the loop ends with
`lockHeld = true` and the goroutine not yet stuck, and as soon as a
second process follows, the next iteration's `mutex.Lock` blocks forever
(`stuck = true`). This contradicts the claim that every acquisition is
matched by a release on every path. -/
theorem kill_lock_imbalance :
    ((kill false (OsSignal.syscallSignal 15) [⟨3, true, true⟩]
        (fun _ _ => true)).loop.lockHeld = true)
    ∧ ((kill false (OsSignal.syscallSignal 15) [⟨3, true, true⟩]
        (fun _ _ => true)).loop.stuck = false)
    ∧ ((kill false (OsSignal.syscallSignal 15) [⟨3, true, true⟩, ⟨4, false, true⟩]
        (fun _ _ => true)).loop.stuck = true) :=
  ⟨rfl, rfl, rfl⟩

/-- C5 counterexample: the registry append of `execDockerCommand` is not
performed under the registry lock — on the operation trace of the
function (which contains no mutex operation at all) the append executes
at lock depth zero, refuting the claim that every registry mutation
happens only while holding the exclusive lock. -/
theorem registry_append_not_locked :
    ¬ (∀ i, i < execDockerCommandOps.length →
        execDockerCommandOps[i]? = some RegOp.appendCmd →
        0 < lockHeldAtIdx execDockerCommandOps i) := by
  decide

/-- C5 (amended): every external process is appended to the registry
immediately after creation and before being run, entries are only ever
appended (never removed), and both the registry and the executed-command
log grow by exactly the spawned command — but the append happens at lock
depth zero, without holding the registry's lock. -/
theorem registry_append_behavior :
    (∀ (u : Bool) (execOk : List String → Bool) (st : RunnerState) (args : List String),
        ((execDockerCommand u execOk st args).1).registry
          = st.registry ++ [execCmdArgv u args]
        ∧ ((execDockerCommand u execOk st args).1).executed
          = st.executed ++ [execCmdArgv u args])
    ∧ execDockerCommandOps[0]? = some RegOp.newCmd
    ∧ execDockerCommandOps[1]? = some RegOp.appendCmd
    ∧ execDockerCommandOps[2]? = some RegOp.runOp
    ∧ lockHeldAtIdx execDockerCommandOps 1 = 0 :=
  ⟨fun _ _ _ _ => ⟨rfl, rfl⟩, rfl, rfl, rfl, rfl⟩

/-- C6: on any key the merged environment of the assembled build entry
takes the caller-override value when that layer defines the key, else the
job-declared value when that layer defines it, else the built-in default
value — later layers silently overwrite earlier ones. -/
theorem mergeEnv_layering (o : LaunchOption) (k : String) :
    (∀ v, o.OptionEnv k = some v → envOf (createBuildEntry o) k = some v)
    ∧ (o.OptionEnv k = none →
        ∀ v, o.Job.Environment k = some v → envOf (createBuildEntry o) k = some v)
    ∧ (o.OptionEnv k = none → o.Job.Environment k = none →
        envOf (createBuildEntry o) k = buildDefaultEnv o k) := by
  refine ⟨?_, ?_, ?_⟩
  · intro v hv; simp [envOf, createBuildEntry, mergeEnv, overlay, hv]
  · intro h0 v hv; simp [envOf, createBuildEntry, mergeEnv, overlay, h0, hv]
  · intro h0 h1; simp [envOf, createBuildEntry, mergeEnv, overlay, h0, h1]

/-- Witness for C6 at the spec scenario: job declares FOO=1, the caller
override declares FOO=2, and the effective FOO is 2. -/
theorem mergeEnv_layering_witness :
    envOf (createBuildEntry optFoo) "FOO" = some "2" :=
  (mergeEnv_layering optFoo "FOO").1 "2" rfl

/-- C7: `createBuildEntry` is total (it never returns an error by
construction); when the configured API URL parses, the environment's
SD_API_URL is that URL with the `v4` path segment appended, and when the
parse fails the original string is retained verbatim — analogously for
SD_STORE_URL with `v1` (stated for options whose job/override layers do
not shadow the two keys). -/
theorem createBuildEntry_urls (o : LaunchOption)
    (hj : o.Job.Environment "SD_API_URL" = none) (ho : o.OptionEnv "SD_API_URL" = none)
    (hjs : o.Job.Environment "SD_STORE_URL" = none) (hos : o.OptionEnv "SD_STORE_URL" = none) :
    (∀ a, urlParse o.Entry.APIURL = some a →
        envOf (createBuildEntry o) "SD_API_URL"
          = some (urlString { a with path := pathJoin a.path apiVersion }))
    ∧ (urlParse o.Entry.APIURL = none →
        envOf (createBuildEntry o) "SD_API_URL" = some o.Entry.APIURL)
    ∧ (∀ s', urlParse o.Entry.StoreURL = some s' →
        envOf (createBuildEntry o) "SD_STORE_URL"
          = some (urlString { s' with path := pathJoin s'.path storeVersion }))
    ∧ (urlParse o.Entry.StoreURL = none →
        envOf (createBuildEntry o) "SD_STORE_URL" = some o.Entry.StoreURL) := by
  refine ⟨?_, ?_, ?_, ?_⟩
  · intro a ha
    simp [envOf, createBuildEntry, mergeEnv, overlay, buildDefaultEnv, ho, hj, ha]
  · intro ha
    simp [envOf, createBuildEntry, mergeEnv, overlay, buildDefaultEnv, ho, hj, ha]
  · intro s' hs
    simp [envOf, createBuildEntry, mergeEnv, overlay, buildDefaultEnv, hos, hjs, hs]
  · intro hs
    simp [envOf, createBuildEntry, mergeEnv, overlay, buildDefaultEnv, hos, hjs, hs]

/-- Witness for C7 at the spec scenario: APIURL http://api.example.com and
StoreURL http://store.example.com yield SD_API_URL
http://api.example.com/v4 and SD_STORE_URL http://store.example.com/v1. -/
theorem createBuildEntry_urls_witness :
    envOf (createBuildEntry optFoo) "SD_API_URL" = some "http://api.example.com/v4"
    ∧ envOf (createBuildEntry optFoo) "SD_STORE_URL" = some "http://store.example.com/v1" := by
  have h := createBuildEntry_urls optFoo rfl rfl rfl rfl
  exact ⟨h.1 { scheme := "http", host := "api.example.com", path := "" } rfl,
         h.2.2.1 { scheme := "http", host := "store.example.com", path := "" } rfl⟩

/-- C8: the container-run argument list is exactly `container run`
followed by the privileged flag (when requested) followed by the
memory-limit flag (when a limit is set) followed by the fixed standard
arguments: `--rm`, the four mounts, the image, the entry script, the
serialized descriptor, the job name, the two versioned URLs and the log
path — so the privileged flag precedes the memory-limit flag, which
precedes the standard run arguments. -/
theorem runBuild_args_order (vol habVolume : String) (be : buildEntry) (configJSON : String)
    (environment : EnvVar) (rest : List EnvVar)
    (henv : be.Environment = environment :: rest) :
    runBuildArgs vol habVolume be configJSON =
      some (["container", "run"]
        ++ (if be.UsePrivileged then ["--privileged"] else [])
        ++ (if be.MemoryLimit ≠ "" then ["-m" ++ be.MemoryLimit] else [])
        ++ ["--rm",
            "-v", be.SrcPath ++ "/:/sd/workspace/src/" ++ scmHost ++ "/" ++ orgRepo,
            "-v", be.ArtifactsPath ++ "/:" ++ envGet environment "SD_ARTIFACTS_DIR",
            "-v", vol ++ ":/opt/sd",
            "-v", habVolume ++ ":/opt/sd/hab",
            be.Image, "/opt/sd/local_run.sh", configJSON, be.JobName,
            envGet environment "SD_API_URL", envGet environment "SD_STORE_URL",
            pathJoin (envGet environment "SD_ARTIFACTS_DIR") LogFile]) := by
  simp only [runBuildArgs, henv]
  by_cases hp : be.UsePrivileged = true <;> by_cases hm : be.MemoryLimit = "" <;>
    simp [hp, hm]

/-- Witness for C8 at the spec scenario: MemoryLimit 512m and
UsePrivileged true produce `--privileged` ahead of `-m512m` ahead of the
standard run arguments. -/
theorem runBuild_args_order_witness :
    runBuildArgs "SD_LAUNCH_BIN" "SD_LAUNCH_HAB" beEx "descriptor-json" =
      some ["container", "run", "--privileged", "-m512m", "--rm",
        "-v", "/home/user/src/:/sd/workspace/src/screwdriver.cd/sd-local/local-build",
        "-v", "/home/user/sd-artifacts/:/sd/workspace/artifacts",
        "-v", "SD_LAUNCH_BIN:/opt/sd",
        "-v", "SD_LAUNCH_HAB:/opt/sd/hab",
        "node:12", "/opt/sd/local_run.sh", "descriptor-json", "main",
        "http://api.example.com/v4", "http://store.example.com/v1",
        "/sd/workspace/artifacts/builds.log"] :=
  Eq.trans
    (runBuild_args_order "SD_LAUNCH_BIN" "SD_LAUNCH_HAB" beEx "descriptor-json" envEx [] rfl)
    (by rfl)

/-- C9 (amended): when the signal's type cannot be mapped to a valid
number, `signum` yields -1 and the elevated-kill path is not skipped: it
spawns `sudo kill --1 <pid>` for every live process, and a process is
excluded from the confirmation set and logged only when that spawned
command fails. -/
theorem signum_unmappable_elevated (s : OsSignal) (hs : signum s = -1)
    (procs : List Proc) (exitedAt : Nat → Nat → Bool)
    (h : ∀ p ∈ procs, p.exited = false) :
    (kill true s procs exitedAt).loop.elevated
        = procs.map (fun p => ["sudo", "kill", "--1", toString p.pid])
    ∧ (kill true s procs exitedAt).loop.failLogged
        = (procs.filter (fun p => !p.signalOk)).map Proc.pid
    ∧ (kill true s procs exitedAt).loop.killedCmds
        = procs.filter (fun p => p.signalOk) := by
  obtain ⟨f1, f2, f3, f4, f5, f6⟩ := killFold_noExited true s procs initKillState rfl rfl h
  have hloop := kill_loop_eq true s procs exitedAt
  have hstr : ("-" ++ toString ((-1 : Int))) = "--1" := rfl
  refine ⟨?_, ?_, ?_⟩
  · rw [hloop, f6]
    simp only [hs, hstr, if_true, initKillState]
    simp
  · rw [hloop, f5]; simp [initKillState]
  · rw [hloop, f3]; simp [initKillState]

/-- Witness for C9's amended statement at a concrete input: for a signal
of non-syscall type, the elevated path runs `sudo kill --1 7`. -/
theorem signum_unmappable_elevated_witness :
    (kill true OsSignal.otherSignal [⟨7, false, true⟩] (fun _ _ => true)).loop.elevated
      = [["sudo", "kill", "--1", "7"]] :=
  Eq.trans
    ((signum_unmappable_elevated OsSignal.otherSignal rfl [⟨7, false, true⟩]
      (fun _ _ => true) (by decide)).1)
    (by rfl)

/-- C9 counterexample: for a signal whose type cannot be mapped to a
number, the elevated-kill path is NOT skipped — `kill` spawns
`sudo kill --1 42` (signal number -1 rendered into the argv); the process
ends up logged and excluded only because that spawned command fails, with
no "cannot determine signal number" outcome anywhere. -/
theorem elevated_kill_not_skipped :
    ((kill true OsSignal.otherSignal [⟨42, false, false⟩] (fun _ _ => false)).loop.elevated
      = [["sudo", "kill", "--1", "42"]])
    ∧ ((kill true OsSignal.otherSignal [⟨42, false, false⟩] (fun _ _ => false)).loop.failLogged
      = [42])
    ∧ ((kill true OsSignal.otherSignal [⟨42, false, false⟩] (fun _ _ => false)).loop.killedCmds
      = []) :=
  ⟨rfl, rfl, rfl⟩

/-- C10: when the docker executable is not found on the PATH, `Run`
returns an error naming the missing command and wrapping the lookup
error, and performs no runner operation at all: no command is executed
and the process registry stays empty. -/
theorem Run_docker_missing (lookErr : String) (d : docker) (execOk : List String → Bool)
    (be : buildEntry) (configJSON : String) :
    launchRun false lookErr d execOk be configJSON
      = ({ registry := [], executed := [] },
         Except.error ("`docker` command is not found in $PATH: " ++ lookErr)) := by
  rfl

end SdLocal
